import Mathlib

/-!
Verification of the gesture pipeline of src/components/GestureController.tsx:
the per-cycle classifier, the debounce state machine over openFrames and
closedFrames, the per-cycle pointer output, the frame-scheduling machinery
built from setTimeout and requestAnimationFrame, and the useEffect cleanup.
Coordinates are modelled as rationals; the per-cycle body of predictWebcam
is modelled as a pure function of the observed mode, the two counters and
the outcome of the detection call.
-/

namespace ChristmasTree

/-- Tree mode enum (TreeMode in src/types): the two externally visible visual states. -/
inductive TreeMode where
  | FORMED
  | CHAOS
deriving DecidableEq, Repr

/-- Raw per-frame gesture signal: OPEN or CLOSED when a hand is present, UNDETERMINED when not. -/
inductive RawSignal where
  | OPEN
  | CLOSED
  | UNDETERMINED
deriving DecidableEq, Repr

/-- One normalized hand landmark point as produced by the detector. -/
structure Landmark where
  x : ℚ
  y : ℚ
deriving DecidableEq, Repr

/-- The debounce threshold constant CONFIDENCE_THRESHOLD = 5 of GestureController.tsx line 30. -/
def CONFIDENCE_THRESHOLD : Nat := 5

/-- The two consecutive-frame counters openFrames and closedFrames (GestureController.tsx lines 28 and 29). -/
structure Counters where
  openFrames : Nat
  closedFrames : Nat
deriving DecidableEq, Repr

/-- Result of one debounce update: the counters after the cycle, plus the onModeChange emission if any. -/
structure DebounceResult where
  counters : Counters
  modeEvent : Option TreeMode
deriving DecidableEq, Repr

/-- Debounce update of GestureController.tsx lines 101 to 123 (OPEN and CLOSED branches, the
observed mode being modeRef.current) together with lines 130 and 131 (both counters zeroed on a
no-hand cycle, with no transition check). -/
def debounceStep (mode : TreeMode) (c : Counters) (sig : RawSignal) : DebounceResult :=
  match sig with
  | .OPEN =>
      let o := c.openFrames + 1
      if CONFIDENCE_THRESHOLD < o ∧ mode = TreeMode.FORMED then
        ⟨⟨0, 0⟩, some TreeMode.CHAOS⟩
      else
        ⟨⟨o, 0⟩, none⟩
  | .CLOSED =>
      let cl := c.closedFrames + 1
      if CONFIDENCE_THRESHOLD < cl ∧ mode = TreeMode.CHAOS then
        ⟨⟨0, 0⟩, some TreeMode.FORMED⟩
      else
        ⟨⟨0, cl⟩, none⟩
  | .UNDETERMINED =>
      ⟨⟨0, 0⟩, none⟩

/-- Landmark lookup at a fixed index, the source expression landmarks[i] on the 21-point array. -/
def lmAt (ls : List Landmark) (i : Nat) : Landmark :=
  ls.getD i ⟨0, 0⟩

/-- Two-finger extension test of GestureController.tsx lines 93 to 99: index tip and PIP at
indices 8 and 6, middle tip and PIP at indices 12 and 10; a finger is open when its tip y is
strictly less than its PIP y. -/
def handOpen (ls : List Landmark) : Bool :=
  let indexTip := lmAt ls 8
  let indexPIP := lmAt ls 6
  let middleTip := lmAt ls 12
  let middlePIP := lmAt ls 10
  decide (indexTip.y < indexPIP.y) && decide (middleTip.y < middlePIP.y)

/-- Raw signal of one cycle given results.landmarks (a list of hands): UNDETERMINED when the
list is empty, otherwise OPEN or CLOSED from the extension test on the first hand. -/
def rawSignalOf (hands : List (List Landmark)) : RawSignal :=
  if 0 < hands.length then
    if handOpen (hands.headD []) then .OPEN else .CLOSED
  else .UNDETERMINED

/-- One onHandPosition emission: normalized coordinates plus the detected flag. -/
structure Pointer where
  x : ℚ
  y : ℚ
  detected : Bool
deriving DecidableEq, Repr

/-- Centroid computation of GestureController.tsx lines 79 to 86: centerX and centerY are
accumulated over every landmark of the first hand and divided by the number of landmarks. -/
def centerOf (ls : List Landmark) : ℚ × ℚ :=
  let centerX := ls.foldl (fun acc l => acc + l.x) 0
  let centerY := ls.foldl (fun acc l => acc + l.y) 0
  (centerX / (ls.length : ℚ), centerY / (ls.length : ℚ))

/-- Outcome of one detectForVideo call: the list of detected hands, or a thrown error. -/
inductive Detection where
  | ok (hands : List (List Landmark))
  | err
deriving DecidableEq, Repr

/-- Observable result of one predictWebcam cycle: the onHandPosition emission (none when the
callback is never invoked that cycle), the counters after the cycle, the onModeChange emission,
and whether the setTimeout of line 141 scheduled a next cycle. -/
structure CycleResult where
  pointer : Option Pointer
  counters : Counters
  modeEvent : Option TreeMode
  rescheduled : Bool
deriving DecidableEq, Repr

/-- One cycle of predictWebcam (first variant, GestureController.tsx lines 66 to 143): when
detection succeeds with at least one hand, publish the centroid pointer and run the debounce
update on the extension test of the first hand; when it succeeds with no hand, publish the
neutral pointer (0.5, 0.5, false) and zero both counters; when it throws, publish nothing and
leave the counters untouched. The trailing setTimeout runs in every case. -/
def predictWebcam (mode : TreeMode) (c : Counters) (det : Detection) : CycleResult :=
  match det with
  | .err => ⟨none, c, none, true⟩
  | .ok hands =>
      if 0 < hands.length then
        let landmarks := hands.headD []
        let center := centerOf landmarks
        let r := debounceStep mode c (if handOpen landmarks then .OPEN else .CLOSED)
        ⟨some ⟨center.1, center.2, true⟩, r.counters, r.modeEvent, true⟩
      else
        ⟨some ⟨1/2, 1/2, false⟩, ⟨0, 0⟩, none, true⟩

/-- Debounce update of the second variant (GestureController.tsx lines 393 to 413 and 420 to
421), which reads the mode from the closure-captured currentMode prop instead of modeRef. -/
def debounceStepV2 (currentMode : TreeMode) (c : Counters) (sig : RawSignal) : DebounceResult :=
  match sig with
  | .OPEN =>
      let o := c.openFrames + 1
      if CONFIDENCE_THRESHOLD < o ∧ currentMode = TreeMode.FORMED then
        ⟨⟨0, 0⟩, some TreeMode.CHAOS⟩
      else
        ⟨⟨o, 0⟩, none⟩
  | .CLOSED =>
      let cl := c.closedFrames + 1
      if CONFIDENCE_THRESHOLD < cl ∧ currentMode = TreeMode.CHAOS then
        ⟨⟨0, 0⟩, some TreeMode.FORMED⟩
      else
        ⟨⟨0, cl⟩, none⟩
  | .UNDETERMINED =>
      ⟨⟨0, 0⟩, none⟩

/-- One cycle of predictWebcam (second variant, GestureController.tsx lines 329 to 435),
identical per-cycle logic with the observed mode taken from the closure-captured prop. -/
def predictWebcamV2 (currentMode : TreeMode) (c : Counters) (det : Detection) : CycleResult :=
  match det with
  | .err => ⟨none, c, none, true⟩
  | .ok hands =>
      if 0 < hands.length then
        let landmarks := hands.headD []
        let center := centerOf landmarks
        let r := debounceStepV2 currentMode c (if handOpen landmarks then .OPEN else .CLOSED)
        ⟨some ⟨center.1, center.2, true⟩, r.counters, r.modeEvent, true⟩
      else
        ⟨some ⟨1/2, 1/2, false⟩, ⟨0, 0⟩, none, true⟩

/-- Fold of the debounce step over a list of raw signals: each emitted mode event becomes the
observed mode of the following cycle (the React re-render updates modeRef before the next
scheduled cycle). Returns the final mode, the final counters, and the list of emitted events. -/
def runSignals : TreeMode → Counters → List RawSignal → TreeMode × Counters × List TreeMode
  | m, c, [] => (m, c, [])
  | m, c, s :: rest =>
      let r := debounceStep m c s
      let next := runSignals (r.modeEvent.getD m) r.counters rest
      (next.1, next.2.1, r.modeEvent.toList ++ next.2.2)

/-- State of the frame-scheduling machinery around predictWebcam: whether the 60ms setTimeout
of line 141 is pending, the queued animation-frame callback if any, the content of
animationFrameIdRef, a fresh-id counter, whether the useEffect cleanup has run, and how many
cycles ran in total and after cleanup. -/
structure SchedulerState where
  timeoutPending : Bool
  rafQueued : Option Nat
  animationFrameId : Option Nat
  nextId : Nat
  cleanedUp : Bool
  cyclesRun : Nat
  cyclesAfterCleanup : Nat
deriving DecidableEq, Repr

/-- Events of the scheduling machinery: a direct invocation of predictWebcam running to its end,
the pending setTimeout firing (line 142 stores a fresh requestAnimationFrame id in the ref), the
queued animation frame firing (the cycle body runs and queues the timer again), and the
useEffect cleanup of lines 235 to 251 (cancelAnimationFrame on the stored id; the pending
setTimeout is never cleared by the source). -/
inductive SchedEvent where
  | runCycle
  | timeoutFire
  | rafFire
  | cleanup
deriving DecidableEq, Repr

/-- Step function of the scheduling machinery, transcribed from the setTimeout and
requestAnimationFrame calls of lines 140 to 143 and the cleanup of lines 235 to 239. An event
whose trigger is not pending is a no-op, matching browser timer semantics. -/
def schedStep (s : SchedulerState) : SchedEvent → SchedulerState
  | .runCycle =>
      ⟨true, s.rafQueued, s.animationFrameId, s.nextId, s.cleanedUp, s.cyclesRun + 1,
        if s.cleanedUp then s.cyclesAfterCleanup + 1 else s.cyclesAfterCleanup⟩
  | .timeoutFire =>
      if s.timeoutPending then
        ⟨false, some s.nextId, some s.nextId, s.nextId + 1, s.cleanedUp, s.cyclesRun,
          s.cyclesAfterCleanup⟩
      else s
  | .rafFire =>
      match s.rafQueued with
      | some _ =>
          ⟨true, none, s.animationFrameId, s.nextId, s.cleanedUp, s.cyclesRun + 1,
            if s.cleanedUp then s.cyclesAfterCleanup + 1 else s.cyclesAfterCleanup⟩
      | none => s
  | .cleanup =>
      let raf :=
        match s.animationFrameId, s.rafQueued with
        | some i, some j => if i = j then none else s.rafQueued
        | _, _ => s.rafQueued
      ⟨s.timeoutPending, raf, s.animationFrameId, s.nextId, true, s.cyclesRun,
        s.cyclesAfterCleanup⟩

/-- Run of the scheduling machinery over a list of events. -/
def schedRun (s : SchedulerState) : List SchedEvent → SchedulerState
  | [] => s
  | e :: rest => schedRun (schedStep s e) rest

/-- Scheduler state right after startWebcam, before the first cycle: nothing pending, the ref
empty, the cleanup not yet run. -/
def initialScheduler : SchedulerState :=
  ⟨false, none, none, 0, false, 0, 0⟩

/-- Resources held by the component at teardown time: whether handLandmarkerRef holds an
instance, the number of tracks of the attached stream if any, and the stored animation-frame id
if any. -/
structure ComponentResources where
  handLandmarker : Bool
  srcTracks : Option Nat
  animationFrameId : Option Nat
deriving DecidableEq, Repr

/-- Release actions performed by one run of the cleanup: cancelAnimationFrame calls, landmarker
close calls, and track stop calls. -/
structure CleanupEffects where
  cancelCalls : Nat
  landmarkerCloses : Nat
  trackStops : Nat
deriving DecidableEq, Repr

/-- The useEffect cleanup of GestureController.tsx lines 235 to 251 over the held resources:
cancel the stored animation frame if the ref is set (the ref itself is not cleared), close and
null the landmarker if present, stop every track and null srcObject if a stream is attached.
Each guard makes the corresponding release a no-op when the resource was never acquired. -/
def cleanupResources (s : ComponentResources) : ComponentResources × CleanupEffects :=
  let cancels := if s.animationFrameId.isSome then 1 else 0
  let closes := if s.handLandmarker then 1 else 0
  let stops := s.srcTracks.getD 0
  (⟨false, none, s.animationFrameId⟩, ⟨cancels, closes, stops⟩)

/-! Helper lemmas shared by the claim theorems. -/

/-- Folding addition of a projection over a list, starting from any accumulator, equals the
accumulator plus the sum of the mapped list. -/
lemma foldl_add_eq_sum (f : Landmark → ℚ) (ls : List Landmark) : ∀ (a : ℚ),
    ls.foldl (fun acc l => acc + f l) a = a + (ls.map f).sum := by
  induction ls with
  | nil => intro a; simp
  | cons hd tl ih => intro a; simp [ih, add_assoc]

/-- Running the debounce fold over an appended signal list composes the two runs and
concatenates the emitted events. -/
lemma runSignals_append (l1 l2 : List RawSignal) : ∀ (m : TreeMode) (c : Counters),
    runSignals m c (l1 ++ l2) =
      ((runSignals (runSignals m c l1).1 (runSignals m c l1).2.1 l2).1,
       (runSignals (runSignals m c l1).1 (runSignals m c l1).2.1 l2).2.1,
       (runSignals m c l1).2.2 ++
         (runSignals (runSignals m c l1).1 (runSignals m c l1).2.1 l2).2.2) := by
  induction l1 with
  | nil => intro m c; simp [runSignals]
  | cons s rest ih => intro m c; simp [runSignals, ih]

/-- While the observed mode is CHAOS, OPEN signals emit no mode event and leave the mode at
CHAOS, however long the run. -/
lemma runSignals_chaos_open (k : Nat) : ∀ (c : Counters),
    (runSignals .CHAOS c (List.replicate k .OPEN)).1 = .CHAOS ∧
    (runSignals .CHAOS c (List.replicate k .OPEN)).2.2 = [] := by
  induction k with
  | zero => intro c; simp [runSignals]
  | succ n ih =>
      intro c
      have h := ih ⟨c.openFrames + 1, 0⟩
      simpa [List.replicate_succ, runSignals, debounceStep] using h

/-- While the observed mode is FORMED, CLOSED signals emit no mode event and leave the mode at
FORMED, however long the run. -/
lemma runSignals_formed_closed (k : Nat) : ∀ (c : Counters),
    (runSignals .FORMED c (List.replicate k .CLOSED)).1 = .FORMED ∧
    (runSignals .FORMED c (List.replicate k .CLOSED)).2.2 = [] := by
  induction k with
  | zero => intro c; simp [runSignals]
  | succ n ih =>
      intro c
      have h := ih ⟨0, c.closedFrames + 1⟩
      simpa [List.replicate_succ, runSignals, debounceStep] using h

/-- One debounce update always zeroes at least one of the two counters, whatever the observed
mode, the previous counters and the signal. -/
lemma debounceStep_exclusive (m : TreeMode) (c : Counters) (sig : RawSignal) :
    (debounceStep m c sig).counters.openFrames = 0 ∨
    (debounceStep m c sig).counters.closedFrames = 0 := by
  cases sig with
  | OPEN => simp only [debounceStep]; split <;> simp
  | CLOSED => simp only [debounceStep]; split <;> simp
  | UNDETERMINED => simp [debounceStep]

/-! Claim theorems. -/

/-- C1: from FORMED with both counters zero, any run of more than THRESHOLD = 5 consecutive
OPEN signals emits the CHAOS transition exactly once; no event is emitted during the first
five signals, the sixth signal emits it and leaves both counters at zero, and no further event
follows on later OPEN signals. The symmetric statement holds for CLOSED runs from CHAOS. -/
theorem open_run_threshold_transition (n : Nat) (h : 5 < n) :
    (runSignals .FORMED ⟨0, 0⟩ (List.replicate n .OPEN)).2.2 = [.CHAOS] ∧
    (runSignals .FORMED ⟨0, 0⟩ (List.replicate 5 .OPEN)).2.2 = [] ∧
    runSignals .FORMED ⟨0, 0⟩ (List.replicate 6 .OPEN) = (.CHAOS, ⟨0, 0⟩, [.CHAOS]) ∧
    (runSignals .CHAOS ⟨0, 0⟩ (List.replicate n .CLOSED)).2.2 = [.FORMED] ∧
    (runSignals .CHAOS ⟨0, 0⟩ (List.replicate 5 .CLOSED)).2.2 = [] ∧
    runSignals .CHAOS ⟨0, 0⟩ (List.replicate 6 .CLOSED) = (.FORMED, ⟨0, 0⟩, [.FORMED]) := by
  have hn : n = 6 + (n - 6) := by omega
  have h6o : runSignals .FORMED ⟨0, 0⟩ (List.replicate 6 .OPEN) =
      (.CHAOS, ⟨0, 0⟩, [.CHAOS]) := by decide
  have h6c : runSignals .CHAOS ⟨0, 0⟩ (List.replicate 6 .CLOSED) =
      (.FORMED, ⟨0, 0⟩, [.FORMED]) := by decide
  refine ⟨?_, by decide, h6o, ?_, by decide, h6c⟩
  · rw [hn, List.replicate_add, runSignals_append, h6o]
    simp [(runSignals_chaos_open (n - 6) ⟨0, 0⟩).2]
  · rw [hn, List.replicate_add, runSignals_append, h6c]
    simp [(runSignals_formed_closed (n - 6) ⟨0, 0⟩).2]

/-- Witness for C1 at a run of eight OPEN signals. -/
theorem open_run_threshold_transition_check :
    5 < 8 ∧ (runSignals .FORMED ⟨0, 0⟩ (List.replicate 8 .OPEN)).2.2 = [.CHAOS] :=
  ⟨by decide, (open_run_threshold_transition 8 (by decide)).1⟩

/-- C2 counterexample: a no-hand (UNDETERMINED) cycle observed in FORMED with both counters
zero leaves closedFrames at 0; the claimed increment to 1 does not happen. -/
theorem undetermined_increment_counterexample :
    (predictWebcam .FORMED ⟨0, 0⟩ (.ok [])).counters.closedFrames ≠ 1 := by decide

/-- C2 amended: on every UNDETERMINED (no-hand) cycle both run counters are reset to 0 and no
mode transition occurs, in either mode. -/
theorem undetermined_resets_both_counters (m : TreeMode) (c : Counters) :
    (predictWebcam m c (.ok [])).counters = ⟨0, 0⟩ ∧
    (predictWebcam m c (.ok [])).modeEvent = none := by
  refine ⟨?_, ?_⟩ <;> simp [predictWebcam]

/-- C3: if at most one run counter is non-zero before a cycle, at most one is non-zero after
it, for every observed mode and every detection outcome including errors. -/
theorem run_counters_mutually_exclusive (m : TreeMode) (c : Counters) (det : Detection)
    (h : c.openFrames = 0 ∨ c.closedFrames = 0) :
    (predictWebcam m c det).counters.openFrames = 0 ∨
    (predictWebcam m c det).counters.closedFrames = 0 := by
  cases det with
  | err => simpa [predictWebcam] using h
  | ok hands =>
      by_cases hp : 0 < hands.length
      · simpa [predictWebcam, hp] using debounceStep_exclusive m c
          (if handOpen (hands.headD []) then .OPEN else .CLOSED)
      · simp [predictWebcam, hp]

/-- Witness for C3 at an error cycle from a zeroed counter pair. -/
theorem run_counters_mutually_exclusive_check :
    ((⟨0, 0⟩ : Counters).openFrames = 0 ∨ (⟨0, 0⟩ : Counters).closedFrames = 0) ∧
    ((predictWebcam .FORMED ⟨0, 0⟩ .err).counters.openFrames = 0 ∨
     (predictWebcam .FORMED ⟨0, 0⟩ .err).counters.closedFrames = 0) :=
  ⟨by decide, run_counters_mutually_exclusive .FORMED ⟨0, 0⟩ .err (by decide)⟩

/-- C4: with a present 21-point landmark set, the raw signal is never UNDETERMINED; it is OPEN
exactly when both the index finger (tip 8 above PIP 6) and the middle finger (tip 12 above
PIP 10) are open in the strict y-comparison sense, and CLOSED exactly otherwise. -/
theorem classifier_present_decisive (hands : List (List Landmark))
    (hp : 0 < hands.length) (_hlen : (hands.headD []).length = 21) :
    rawSignalOf hands ≠ .UNDETERMINED ∧
    (rawSignalOf hands = .OPEN ↔
      ((lmAt (hands.headD []) 8).y < (lmAt (hands.headD []) 6).y ∧
       (lmAt (hands.headD []) 12).y < (lmAt (hands.headD []) 10).y)) ∧
    (rawSignalOf hands = .CLOSED ↔
      ¬ ((lmAt (hands.headD []) 8).y < (lmAt (hands.headD []) 6).y ∧
         (lmAt (hands.headD []) 12).y < (lmAt (hands.headD []) 10).y)) := by
  have key : rawSignalOf hands =
      (if ((lmAt (hands.headD []) 8).y < (lmAt (hands.headD []) 6).y ∧
           (lmAt (hands.headD []) 12).y < (lmAt (hands.headD []) 10).y) then
        .OPEN else .CLOSED) := by
    simp [rawSignalOf, hp, handOpen]
  rw [key]
  split
  · next hcond =>
      simp only [List.headD_eq_head?] at hcond
      simp [hcond]
  · next hcond =>
      simp only [List.headD_eq_head?] at hcond
      simp [hcond]

/-- Witness for C4 at a concrete 21-point hand with every landmark at the origin. -/
theorem classifier_present_decisive_check :
    0 < ([List.replicate 21 (⟨0, 0⟩ : Landmark)] : List (List Landmark)).length ∧
    rawSignalOf [List.replicate 21 (⟨0, 0⟩ : Landmark)] ≠ .UNDETERMINED :=
  ⟨by decide, (classifier_present_decisive [List.replicate 21 ⟨0, 0⟩]
    (by decide) (by decide)).1⟩

/-- C5: a cycle with an empty hands list publishes exactly the neutral pointer
(1/2, 1/2, false); a cycle with a present hand publishes the arithmetic mean of the hand's
coordinates with detected true; and the centroid is invariant under permutation of the
landmark list. -/
theorem pointer_state_centroid :
    (∀ (m : TreeMode) (c : Counters),
      (predictWebcam m c (Detection.ok [])).pointer = some ⟨1/2, 1/2, false⟩) ∧
    (∀ (m : TreeMode) (c : Counters) (hand : List Landmark) (rest : List (List Landmark)),
      (predictWebcam m c (Detection.ok (hand :: rest))).pointer =
        some ⟨(hand.map Landmark.x).sum / (hand.length : ℚ),
              (hand.map Landmark.y).sum / (hand.length : ℚ), true⟩) ∧
    (∀ (ls ls' : List Landmark), ls.Perm ls' → centerOf ls = centerOf ls') := by
  refine ⟨fun m c => by simp [predictWebcam], fun m c hand rest => ?_, fun ls ls' hp => ?_⟩
  · simp [predictWebcam, centerOf, foldl_add_eq_sum]
  · have hx : (ls.map Landmark.x).sum = (ls'.map Landmark.x).sum := (hp.map _).sum_eq
    have hy : (ls.map Landmark.y).sum = (ls'.map Landmark.y).sum := (hp.map _).sum_eq
    simp [centerOf, foldl_add_eq_sum, hx, hy, hp.length_eq]

/-- Witness for C5 at a concrete two-element permutation. -/
theorem pointer_state_centroid_check :
    ([⟨0, 1⟩, ⟨1, 0⟩] : List Landmark).Perm [⟨1, 0⟩, ⟨0, 1⟩] ∧
    centerOf [⟨0, 1⟩, ⟨1, 0⟩] = centerOf [⟨1, 0⟩, ⟨0, 1⟩] :=
  ⟨by decide, pointer_state_centroid.2.2 _ _ (by decide)⟩

/-- C6 counterexample: in FORMED, a CLOSED signal increments closedFrames from 0 to 1 instead
of holding it at 0, although CLOSED would trigger the already-active FORMED mode. -/
theorem counter_reset_claim_counterexample :
    ¬ (debounceStep .FORMED ⟨0, 0⟩ .CLOSED).counters.closedFrames = 0 := by decide

/-- C6 amended: a run counter is reset to 0 exactly when the opposing signal occurs; a signal
matching the already-active mode still increments its own counter and emits no transition. -/
theorem counter_reset_behavior (m : TreeMode) (c : Counters) :
    (debounceStep m c .OPEN).counters.closedFrames = 0 ∧
    (debounceStep m c .CLOSED).counters.openFrames = 0 ∧
    debounceStep .FORMED c .CLOSED = ⟨⟨0, c.closedFrames + 1⟩, none⟩ ∧
    debounceStep .CHAOS c .OPEN = ⟨⟨c.openFrames + 1, 0⟩, none⟩ := by
  refine ⟨?_, ?_, ?_, ?_⟩ <;> simp [debounceStep] <;> split <;> simp

/-- C7 counterexample: a cycle whose detection call throws publishes no pointer update at all,
in particular not the claimed single neutral (1/2, 1/2, false) update. -/
theorem error_cycle_counterexample :
    (predictWebcam .FORMED ⟨2, 0⟩ .err).pointer ≠ some ⟨1/2, 1/2, false⟩ := by
  simp [predictWebcam]

/-- C7 amended: a cycle whose detection call throws does not crash the loop; it publishes no
pointer update, leaves the counters untouched, emits no mode event, and still schedules the
next cycle. -/
theorem error_cycle_behavior (m : TreeMode) (c : Counters) :
    predictWebcam m c .err = ⟨none, c, none, true⟩ := rfl

/-- C8: evaluating the scheduling machinery on the failing trace — a cycle finishes and queues
the 60ms timer, the cleanup runs during that window, then the timer fires and the animation
frame it queued fires — shows that one full cycle runs after the cleanup, because the cleanup
never clears the pending setTimeout of line 141. -/
theorem cleanup_misses_pending_timeout :
    (schedRun initialScheduler [.runCycle, .cleanup, .timeoutFire, .rafFire]).cleanedUp = true ∧
    (schedRun initialScheduler
      [.runCycle, .cleanup, .timeoutFire, .rafFire]).cyclesAfterCleanup = 1 := by decide

/-- C9: running the cleanup twice closes the landmarker at most once and stops the camera
tracks at most once (the second run releases nothing), and cleanup of a fully uninitialized
component performs no release action at all. -/
theorem teardown_idempotent_partial_safe (s : ComponentResources) :
    (cleanupResources (cleanupResources s).1).2.landmarkerCloses = 0 ∧
    (cleanupResources (cleanupResources s).1).2.trackStops = 0 ∧
    (cleanupResources s).2.landmarkerCloses ≤ 1 ∧
    cleanupResources ⟨false, none, none⟩ = (⟨false, none, none⟩, ⟨0, 0, 0⟩) := by
  refine ⟨rfl, rfl, ?_, rfl⟩
  cases hb : s.handLandmarker <;> simp [cleanupResources, hb]

/-- C10: the two predictWebcam variants compute the identical per-cycle result — pointer
emission, counter update and mode-change decision — for every observed mode, every counter
pair and every detection outcome. -/
theorem variants_equivalent (m : TreeMode) (c : Counters) (det : Detection) :
    predictWebcamV2 m c det = predictWebcam m c det := rfl

end ChristmasTree
